import Mathlib

/-
Verification development for the request-authentication layer of the
test-serviceability repository.

The layer consists of:
  * a server-side HMAC utility module (generateHMAC / verifyHMAC /
    verifyHMACMiddleware / signResponse), used by the envelope server;
  * a client-side HMAC utility module (generateHMAC / verifyHMACResponse /
    createSignedRequest), used by the checkout extension;
  * an app-proxy signature verifier and middleware (verifyAppProxy) and a
    webhook verifier (verifyShopifyWebhook) in web/index.js;
  * startup secret checks in both server entry points.

The JavaScript is embedded shallowly:
  * JSON values are the inductive type JSValue; JSON.stringify is
    JSValue.stringify (insertion order of object fields is kept, as in JS).
  * The HMAC-SHA256 digest is a library primitive, not repository code, so
    every definition takes it as an explicit function parameter
    `hmac : Digest` mapping (secret, message) to the raw digest bytes.
    Likewise JSON.parse in the webhook adapter is a parameter.
  * JavaScript NaN propagation in the replay-window check is made explicit:
    parseInt is modelled as `parseIntJS : String → Option Int` with `none`
    for NaN, and at each use site the comparison `NaN > MAX_TIME_DIFF`
    (which is false in JS) is written out as a match on the Option.
  * crypto.timingSafeEqual throws when the buffers have different byte
    lengths; it is modelled as `Option Bool` with `none` for the throw.
  * To reason about the timing behaviour of comparisons, instrumented
    variants return the number of byte/char inspections performed under the
    comparator's evaluation strategy alongside the boolean result.
-/

/-! ## JavaScript basics: truthiness, parseInt, Number.toString -/

/-- Truthiness of an optional string: `undefined` and `""` are falsy in JS. -/
def optTruthy : Option String → Bool
  | none => false
  | some s => s != ""

/-- Accumulating decimal parser: consumes leading digits, stops at the first
non-digit, exactly like the digit loop of JS parseInt. -/
def parseDigitsAux : List Char → Nat → Nat
  | [], acc => acc
  | c :: cs, acc => if c.isDigit then parseDigitsAux cs (acc * 10 + (c.toNat - 48)) else acc

/-- Longest leading digit sequence as a number; `none` when the first char is
not a digit (parseInt returns NaN in that case). -/
def parseLeadingNat : List Char → Option Nat
  | [] => none
  | c :: cs => if c.isDigit then some (parseDigitsAux cs (c.toNat - 48)) else none

/-- Model of JS `parseInt(s, 10)`: optional sign followed by the longest digit
prefix; `none` models NaN.  (Leading-whitespace trimming is omitted: no
behaviour settled here depends on it.) -/
def parseIntJS (s : String) : Option Int :=
  match s.data with
  | [] => none
  | c :: cs =>
    if c = '-' then (parseLeadingNat cs).map (fun n => -(n : Int))
    else if c = '+' then (parseLeadingNat cs).map (fun n => (n : Int))
    else (parseLeadingNat (c :: cs)).map (fun n => (n : Int))

/-- Decimal digits of a natural number, most significant first.  Structural
recursion on a fuel bound (any fuel above the value is enough, and the digit
count is logarithmic, so concrete evaluation stays cheap). -/
def natDigitsAux : Nat → Nat → List Char
  | 0, _ => []
  | fuel + 1, n =>
    if n < 10 then [Char.ofNat (48 + n)]
    else natDigitsAux fuel (n / 10) ++ [Char.ofNat (48 + n % 10)]

/-- Model of JS `Number.prototype.toString` on a non-negative integer, as used
for `Date.now().toString()`. -/
def natToString (n : Nat) : String := String.mk (natDigitsAux (n + 1) n)

/-! ## JSON values and JSON.stringify -/

/-- JSON value as manipulated by the JavaScript code.  Numbers are modelled as
integers (all numbers signed or compared by this layer are integral
timestamps or payload fields). -/
inductive JSValue where
  | null
  | bool (b : Bool)
  | num (n : Int)
  | str (s : String)
  | arr (elems : List JSValue)
  | obj (fields : List (String × JSValue))

/-- Truthiness of a JSValue under JS coercion: null, false, 0 and "" are
falsy; every array and object is truthy. -/
def JSValue.truthy : JSValue → Bool
  | .null => false
  | .bool b => b
  | .num n => n != 0
  | .str s => s != ""
  | .arr _ => true
  | .obj _ => true

/-- Lower-case hex digit, as produced by Buffer's and CryptoJS's hex output. -/
def hexDigitChar (n : Nat) : Char := if n < 10 then Char.ofNat (48 + n) else Char.ofNat (87 + n)

/-- Two hex chars of one byte. -/
def hexByteChars (b : Nat) : List Char := [hexDigitChar (b / 16 % 16), hexDigitChar (b % 16)]

/-- JSON string escaping as performed by JSON.stringify. -/
def jsonEscapeChar (c : Char) : List Char :=
  if c = '"' then ['\\', '"']
  else if c = '\\' then ['\\', '\\']
  else if c = '\n' then ['\\', 'n']
  else if c = '\t' then ['\\', 't']
  else if c = '\r' then ['\\', 'r']
  else if c.toNat < 32 then '\\' :: 'u' :: '0' :: '0' :: hexByteChars c.toNat
  else [c]

/-- Quoted, escaped JSON string literal. -/
def jsonQuote (s : String) : String :=
  "\"" ++ String.mk (s.data.map jsonEscapeChar).flatten ++ "\""

mutual

/-- Model of `JSON.stringify`: object fields keep their construction order,
exactly as JS preserves string-key insertion order. -/
def JSValue.stringify : JSValue → String
  | .null => "null"
  | .bool true => "true"
  | .bool false => "false"
  | .num n => if n < 0 then "-" ++ natToString n.natAbs else natToString n.toNat
  | .str s => jsonQuote s
  | .arr xs => "[" ++ stringifyElems xs ++ "]"
  | .obj fs => "\x7b" ++ stringifyFields fs ++ "\x7d"

/-- Comma-separated serialization of array elements. -/
def stringifyElems : List JSValue → String
  | [] => ""
  | [x] => x.stringify
  | x :: y :: rest => x.stringify ++ "," ++ stringifyElems (y :: rest)

/-- Comma-separated serialization of object fields. -/
def stringifyFields : List (String × JSValue) → String
  | [] => ""
  | [(k, v)] => jsonQuote k ++ ":" ++ v.stringify
  | (k, v) :: f :: rest => jsonQuote k ++ ":" ++ v.stringify ++ "," ++ stringifyFields (f :: rest)

end

/-! ## Byte encodings: hex and base64 -/

/-- Hexadecimal rendering of a digest, as in `.digest('hex')` and
`CryptoJS.enc.Hex`. -/
def hexEncode (bs : List Nat) : String := String.mk (bs.map hexByteChars).flatten

/-- Base64 alphabet character for a 6-bit value. -/
def b64Char (n : Nat) : Char :=
  if n < 26 then Char.ofNat (65 + n)
  else if n < 52 then Char.ofNat (97 + (n - 26))
  else if n < 62 then Char.ofNat (48 + (n - 52))
  else if n = 62 then '+'
  else '/'

/-- Base64 encoding of a byte list in 3-byte groups with padding. -/
def b64Chunks : List Nat → List Char
  | [] => []
  | [a] => [b64Char (a / 4 % 64), b64Char (a % 4 * 16), '=', '=']
  | [a, b] => [b64Char (a / 4 % 64), b64Char ((a % 4 * 16 + b / 16) % 64), b64Char (b % 16 * 4), '=']
  | a :: b :: c :: rest =>
      b64Char (a / 4 % 64) :: b64Char ((a % 4 * 16 + b / 16) % 64) ::
      b64Char ((b % 16 * 4 + c / 64) % 64) :: b64Char (c % 64) :: b64Chunks rest

/-- Base64 rendering of a digest, as in `.digest('base64')`. -/
def base64Encode (bs : List Nat) : String := String.mk (b64Chunks bs)

/-! ## Comparison primitives -/

/-- UTF-8 byte length of a string: the length of `Buffer.from(s)`. -/
def utf8Len (s : String) : Nat := s.data.foldl (fun n c => n + c.utf8Size) 0

/-- Model of `crypto.timingSafeEqual(Buffer.from(a), Buffer.from(b))`:
throws (`none`) when the byte lengths differ, otherwise compares all bytes.
Byte-sequence equality of UTF-8 encodings coincides with string equality. -/
def timingSafeEqual (a b : String) : Option Bool :=
  if utf8Len a = utf8Len b then some (a == b) else none

/-- Instrumented timingSafeEqual: alongside the result, the number of byte
positions inspected.  The primitive always scans the full common length, so
the count is the byte length, never a function of the contents. -/
def timingSafeEqualT (a b : String) : Option (Bool × Nat) :=
  if utf8Len a = utf8Len b then some (a == b, utf8Len a) else none

/-- Character-by-character scan of a short-circuiting equality: stops at the
first mismatch, returning the result and the number of positions compared. -/
def scanEq : List Char → List Char → Bool × Nat
  | [], [] => (true, 0)
  | [], _ :: _ => (false, 0)
  | _ :: _, [] => (false, 0)
  | a :: as, b :: bs =>
    if a = b then ((scanEq as bs).1, (scanEq as bs).2 + 1) else (false, 1)

/-- Instrumented model of JS `===` on strings: length check first, then a
short-circuiting scan; the count is the number of positions inspected and
depends on where the first mismatch sits. -/
def jsStrictEqT (a b : String) : Bool × Nat :=
  if a.data.length = b.data.length then scanEq a.data b.data else (false, 0)

/-- Boolean result of JS `===` on strings. -/
def jsStrictEq (a b : String) : Bool := (jsStrictEqT a b).1

/-! ## The HMAC digest primitive

HMAC-SHA256 itself is the crypto library, not repository code; every
definition that needs it takes it as a parameter mapping (secret, message)
to the raw digest bytes. -/

/-- Type of the HMAC-SHA256 digest primitive: secret and message to digest
bytes. -/
abbrev Digest := String → String → List Nat

/-- Argument given to the digest: a string payload is signed as-is, any other
value is JSON.stringify-ed first (`typeof payload === 'string' ? payload :
JSON.stringify(payload)`, identical in the server and client modules). -/
def hmacInput : JSValue → String
  | .str s => s
  | v => v.stringify

/-! ## Server-side hmac-utils module (used by the envelope server) -/

/-- Server `generateHMAC(payload, secret)`: hex HMAC-SHA256 of the
canonicalized payload. -/
def generateHMAC (hmac : Digest) (payload : JSValue) (secret : String) : String :=
  hexEncode (hmac secret (hmacInput payload))

/-- Server `verifyHMAC(payload, signature, secret)`: recompute the expected
signature and compare with crypto.timingSafeEqual.  `none` models the throw
of timingSafeEqual on byte-length mismatch. -/
def verifyHMAC (hmac : Digest) (payload : JSValue) (signature : String) (secret : String) :
    Option Bool :=
  timingSafeEqual signature (generateHMAC hmac payload secret)

/-- Replay tolerance: 5 minutes in milliseconds, as in both verifier files. -/
def MAX_TIME_DIFF : Nat := 5 * 60 * 1000

/-- Replay-window guard on a parsed timestamp:
`Math.abs(currentTime - requestTime) > MAX_TIME_DIFF` rejects, so the guard
accepts exactly when the absolute difference is at most the tolerance. -/
def checkFreshness (requestTime currentTime : Int) : Bool :=
  !((currentTime - requestTime).natAbs > MAX_TIME_DIFF)

/-- Outcome of the envelope middleware: call the next handler, or reject
with an HTTP status and the `error` / `message` fields of the JSON body
(the body also carries a constant `success: false`). -/
inductive MWResult where
  | next
  | reject (status : Nat) (error : String) (message : String)
deriving DecidableEq

/-- Server `verifyHMACMiddleware(secret)` applied to one request, given the
method, the two `x-hmac-*` headers, the parsed JSON body and the current
time.  The unparseable-timestamp case is spelled out: parseInt yields NaN,
`Math.abs(now - NaN)` is NaN, and `NaN > MAX_TIME_DIFF` is false in JS, so
the expiry rejection is not taken.  The 500 message is the Node error text
of the timingSafeEqual length throw. -/
def verifyHMACMiddleware (hmac : Digest) (secret : String) (method : String)
    (sigHeader tsHeader : Option String) (body : JSValue) (now : Int) : MWResult :=
  if method = "GET" then .next
  else if !(optTruthy sigHeader && optTruthy tsHeader) then
    .reject 401 "HMAC authentication required" "Missing X-HMAC-Signature or X-HMAC-Timestamp header"
  else
    let signature := sigHeader.getD ""
    let timestamp := tsHeader.getD ""
    let fresh : Bool :=
      match parseIntJS timestamp with
      | some requestTime => checkFreshness requestTime now
      | none => true
    if fresh = false then .reject 401 "Request expired" "Timestamp is too old or in the future"
    else
      let payload := JSValue.obj [("body", body), ("timestamp", .str timestamp)]
      match verifyHMAC hmac payload signature secret with
      | none => .reject 500 "HMAC verification error" "Input buffers must have the same byte length"
      | some false => .reject 401 "Invalid HMAC signature" "Request signature verification failed"
      | some true => .next

/-- Signed-response envelope `{ data, hmac: { signature, timestamp } }`;
`hmac := none` models a response without the hmac field. -/
structure ResponseEnvelope where
  data : JSValue
  hmac : Option (String × String)

/-- Server `signResponse(data, secret)`: sign `{data, timestamp}` and wrap
data with the hmac metadata, the timestamp being `Date.now().toString()`. -/
def signResponse (hmac : Digest) (data : JSValue) (secret : String) (now : Nat) :
    ResponseEnvelope :=
  let timestamp := natToString now
  let payload := JSValue.obj [("data", data), ("timestamp", .str timestamp)]
  ⟨data, some (generateHMAC hmac payload secret, timestamp)⟩

/-! ## Client-side hmac-utils module (checkout extension) -/

namespace ClientHmac

/-- Hardcoded client-side shared secret from the extension module. -/
def HMAC_SECRET : String := "dummy-hmac-secret-key-for-development-only-replace-in-production"

/-- Client `generateHMAC(payload)`: CryptoJS HmacSHA256 rendered hex.  The
source pins the secret to the module constant; it is a parameter here so the
shared-secret condition of the protocol can be stated. -/
def generateHMAC (hmac : Digest) (clientSecret : String) (payload : JSValue) : String :=
  hexEncode (hmac clientSecret (hmacInput payload))

/-- Result record of verifyHMACResponse: `{ isValid, error, data }`. -/
structure ClientVerifyResult where
  isValid : Bool
  error : Option String
  data : Option JSValue

/-- Client `verifyHMACResponse(response)`: the guard chain of the source in
order — falsy response / hmac / data, falsy signature or timestamp, replay
window (with the NaN case of parseInt spelled out as in the middleware),
then a `!==` comparison against the recomputed signature. -/
def verifyHMACResponse (hmac : Digest) (clientSecret : String)
    (response : Option ResponseEnvelope) (now : Int) : ClientVerifyResult :=
  match response with
  | none => ⟨false, some "Missing HMAC data in response", none⟩
  | some resp =>
    match resp.hmac with
    | none => ⟨false, some "Missing HMAC data in response", none⟩
    | some meta =>
      if resp.data.truthy = false then ⟨false, some "Missing HMAC data in response", none⟩
      else
        let signature := meta.1
        let timestamp := meta.2
        if signature = "" ∨ timestamp = "" then ⟨false, some "Invalid HMAC structure", none⟩
        else
          let fresh : Bool :=
            match parseIntJS timestamp with
            | some requestTime => checkFreshness requestTime now
            | none => true
          if fresh = false then
            ⟨false, some "Response timestamp is too old or in the future", none⟩
          else
            let payload := JSValue.obj [("data", resp.data), ("timestamp", .str timestamp)]
            let expectedSignature := generateHMAC hmac clientSecret payload
            if jsStrictEq signature expectedSignature = false then
              ⟨false, some "HMAC signature verification failed", none⟩
            else ⟨true, none, some resp.data⟩

/-- Number of char comparisons performed by the `!==` check of
verifyHMACResponse when it is reached (0 when an earlier guard rejects). -/
def verifyHMACResponseSteps (hmac : Digest) (clientSecret : String)
    (response : Option ResponseEnvelope) (now : Int) : Nat :=
  match response with
  | none => 0
  | some resp =>
    match resp.hmac with
    | none => 0
    | some meta =>
      if resp.data.truthy = false then 0
      else if meta.1 = "" ∨ meta.2 = "" then 0
      else
        let fresh : Bool :=
          match parseIntJS meta.2 with
          | some requestTime => checkFreshness requestTime now
          | none => true
        if fresh = false then 0
        else
          let payload := JSValue.obj [("data", resp.data), ("timestamp", .str meta.2)]
          (jsStrictEqT meta.1 (generateHMAC hmac clientSecret payload)).2

/-- Signed request as produced by createSignedRequest: the body plus the two
HMAC headers. -/
structure SignedRequest where
  body : JSValue
  signatureHeader : String
  timestampHeader : String

/-- Client `createSignedRequest(requestData)`: sign `{body, timestamp}` and
return the body together with the X-HMAC-Signature / X-HMAC-Timestamp
headers. -/
def createSignedRequest (hmac : Digest) (clientSecret : String) (requestData : JSValue)
    (now : Nat) : SignedRequest :=
  let timestamp := natToString now
  let payload := JSValue.obj [("body", requestData), ("timestamp", .str timestamp)]
  ⟨requestData, generateHMAC hmac clientSecret payload, timestamp⟩

end ClientHmac

/-! ## App-proxy verifier and middleware (web/index.js) -/

/-- Insert a pair into a key-sorted list (lexicographic on keys). -/
def insertPair (leB : String → String → Bool) (x : String × String) :
    List (String × String) → List (String × String)
  | [] => [x]
  | y :: ys => if leB x.1 y.1 then x :: y :: ys else y :: insertPair leB x ys

/-- Insertion sort of key/value pairs by key. -/
def sortByKey (leB : String → String → Bool) : List (String × String) → List (String × String)
  | [] => []
  | x :: xs => insertPair leB x (sortByKey leB xs)

/-- Strict codepoint comparison of chars, the basis of JS default
Array.prototype.sort string ordering. -/
def charLtB (a b : Char) : Bool := decide (a.toNat < b.toNat)

/-- Lexicographic (less-or-equal) order on char lists. -/
def charListLeB : List Char → List Char → Bool
  | [], _ => true
  | _ :: _, [] => false
  | a :: as, b :: bs => if a = b then charListLeB as bs else charLtB a b

/-- Lexicographic order on strings, modelling the default comparator of
`Object.keys(rest).sort()`. -/
def strLeB (a b : String) : Bool := charListLeB a.data b.data

/-- Canonical query string of `verifyAppProxy`:
`Object.keys(rest).sort().map(k => k + "=" + rest[k]).join('')` — sort the
pairs by key (keys of a query object are unique, so sorting pairs by key is
the same as sorting keys and indexing) and join with no separator. -/
def sortedParams (rest : List (String × String)) : String :=
  String.join ((sortByKey strLeB rest).map (fun p => p.1 ++ "=" ++ p.2))

/-- Expected app-proxy signature: hex HMAC-SHA256 of the canonical query
string of all parameters except `signature`. -/
def appProxyExpected (hmac : Digest) (secret : String) (rest : List (String × String)) : String :=
  hexEncode (hmac secret (sortedParams rest))

/-- `verifyAppProxy(req)`: destructure the signature parameter (falsy,
including the empty string, means immediate failure), recompute the expected
signature over the remaining parameters, and compare with JS `===`. -/
def verifyAppProxy (hmac : Digest) (secret : String) (query : List (String × String)) : Bool :=
  match query.lookup "signature" with
  | none => false
  | some signature =>
    if signature = "" then false
    else jsStrictEq signature
      (appProxyExpected hmac secret (query.filter (fun p => p.1 != "signature")))

/-- Number of char comparisons performed by the `===` check of
verifyAppProxy when it is reached (0 when the signature parameter is
missing or empty). -/
def verifyAppProxySteps (hmac : Digest) (secret : String)
    (query : List (String × String)) : Nat :=
  match query.lookup "signature" with
  | none => 0
  | some signature =>
    if signature = "" then 0
    else (jsStrictEqT signature
      (appProxyExpected hmac secret (query.filter (fun p => p.1 != "signature")))).2

/-- Debug body of the app-proxy 401 rejection, a function of the query
alone: `{ success: false, error, debug: { receivedShop, receivedSignature,
hasTimestamp, allParams } }`. -/
structure ProxyRejectBody where
  success : Bool
  error : String
  receivedShop : Option String
  receivedSignature : Option String
  hasTimestamp : Bool
  allParams : List String
deriving DecidableEq

/-- The rejection body built at web/index.js when verifyAppProxy fails. -/
def appProxyRejectBody (query : List (String × String)) : ProxyRejectBody :=
  ⟨false, "Invalid app proxy signature", query.lookup "shop", query.lookup "signature",
    optTruthy (query.lookup "timestamp"), query.map Prod.fst⟩

/-- Outcome of the `/proxy` middleware: next handler with the trusted shop
domain, or a 401 rejection carrying the debug body. -/
inductive ProxyMWResult where
  | next (shopDomain : Option String)
  | reject (status : Nat) (body : ProxyRejectBody)
deriving DecidableEq

/-- The `/proxy` middleware: verify, then either propagate `req.query.shop`
as `req.shopDomain` or reject with 401 and the debug body. -/
def appProxyMiddleware (hmac : Digest) (secret : String)
    (query : List (String × String)) : ProxyMWResult :=
  if verifyAppProxy hmac secret query then .next (query.lookup "shop")
  else .reject 401 (appProxyRejectBody query)

/-! ## Webhook adapter (web/index.js) -/

/-- Outcome of the webhook middleware: parsed body handed to the handler, or
a rejection with status and body text. -/
inductive WebhookResult where
  | ok (parsedBody : JSValue)
  | reject (status : Nat) (bodyText : String)

/-- `verifyShopifyWebhook(secret)`: missing header is a 401; the base64
digest of the raw body is compared with timingSafeEqual, whose length throw
is caught by the surrounding try/catch and turned into a 400 "Invalid
Webhook" — as is a JSON.parse failure after successful verification.  A
same-length mismatch is a 401.  JSON.parse is a library call and therefore a
parameter. -/
def verifyShopifyWebhook (hmac : Digest) (parseJson : String → Option JSValue)
    (secret : String) (hmacHeader : Option String) (rawBody : String) : WebhookResult :=
  if optTruthy hmacHeader = false then .reject 401 "Unauthorized"
  else
    let generatedHash := base64Encode (hmac secret rawBody)
    match timingSafeEqual generatedHash (hmacHeader.getD "") with
    | none => .reject 400 "Invalid Webhook"
    | some false => .reject 401 "Unauthorized"
    | some true =>
      match parseJson rawBody with
      | some parsed => .ok parsed
      | none => .reject 400 "Invalid Webhook"

/-! ## Startup secret checks -/

/-- Result of process startup: exit with a code before serving, or listen. -/
inductive StartupResult where
  | exited (code : Nat)
  | listening (port : Nat)
deriving DecidableEq

/-- Envelope server entry point: `if (!HMAC_SECRET) process.exit(1)` before
any route is installed; otherwise the server listens. -/
def envelopeServerStartup (hmacSecret : Option String) (port : Nat) : StartupResult :=
  if optTruthy hmacSecret = false then .exited 1 else .listening port

/-- Proxy/webhook server entry point:
`if (!SHOPIFY_API_SECRET || !SHOPIFY_API_KEY) process.exit(1)` before any
route is installed; otherwise the server listens. -/
def proxyServerStartup (apiSecret apiKey : Option String) (port : Nat) : StartupResult :=
  if optTruthy apiSecret = false || optTruthy apiKey = false then .exited 1 else .listening port

/-! ## Supporting lemmas -/

/-- Scanning a list against itself succeeds after inspecting every position. -/
theorem scanEq_self (l : List Char) : scanEq l l = (true, l.length) := by
  induction l with
  | nil => rfl
  | cons a as ih => simp [scanEq, ih]

/-- JS `===` is reflexive. -/
theorem jsStrictEq_self (s : String) : jsStrictEq s s = true := by
  simp [jsStrictEq, jsStrictEqT, scanEq_self]

/-- timingSafeEqual of a string with itself returns true. -/
theorem timingSafeEqual_self (s : String) : timingSafeEqual s s = some true := by
  simp [timingSafeEqual]

/-- Hex output of a non-empty digest is a non-empty string. -/
theorem hexEncode_ne_empty {bs : List Nat} (h : bs ≠ []) : hexEncode bs ≠ "" := by
  cases bs with
  | nil => exact absurd rfl h
  | cons b rest =>
    intro hcontra
    have : ((hexEncode (b :: rest)).data) = ("" : String).data := by rw [hcontra]
    simp [hexEncode, hexByteChars] at this

/-- The fuel-indexed digit list is never empty when the fuel covers the value. -/
theorem natDigitsAux_ne_nil {fuel n : Nat} (h : n < fuel) : natDigitsAux fuel n ≠ [] := by
  cases fuel with
  | zero => omega
  | succ f =>
    by_cases h10 : n < 10 <;> simp [natDigitsAux, h10]

/-- Model of Number.toString never returns the empty string. -/
theorem natToString_ne_empty (n : Nat) : natToString n ≠ "" := by
  intro hcontra
  have hdata : (natToString n).data = ("" : String).data := by rw [hcontra]
  simp only [natToString] at hdata
  exact natDigitsAux_ne_nil (Nat.lt_succ_self n) hdata

/-- Characters printed for digit values are decimal digit characters. -/
theorem digitChar_isDigit {m : Nat} (h : m < 10) : (Char.ofNat (48 + m)).isDigit = true := by
  interval_cases m <;> decide

/-- Code point of a printed digit character. -/
theorem digitChar_toNat {m : Nat} (h : m < 10) : (Char.ofNat (48 + m)).toNat = 48 + m := by
  interval_cases m <;> decide

/-- Every character produced by the digit printer is a digit. -/
theorem natDigitsAux_all_digits :
    ∀ fuel n, n < fuel → ∀ c ∈ natDigitsAux fuel n, c.isDigit = true := by
  intro fuel
  induction fuel with
  | zero => intro n h; omega
  | succ f ih =>
    intro n h c hc
    by_cases h10 : n < 10
    · simp [natDigitsAux, h10] at hc
      subst hc
      exact digitChar_isDigit h10
    · simp only [natDigitsAux, if_neg h10, List.mem_append, List.mem_singleton] at hc
      rcases hc with hc | hc
      · exact ih (n / 10) (by omega) c hc
      · subst hc
        exact digitChar_isDigit (Nat.mod_lt n (by omega))

/-- The accumulating parser distributes over an all-digit first segment. -/
theorem parseDigitsAux_append (l₁ l₂ : List Char) (acc : Nat)
    (h : ∀ c ∈ l₁, c.isDigit = true) :
    parseDigitsAux (l₁ ++ l₂) acc = parseDigitsAux l₂ (parseDigitsAux l₁ acc) := by
  induction l₁ generalizing acc with
  | nil => rfl
  | cons c cs ih =>
    have hc : c.isDigit = true := h c (List.mem_cons_self c cs)
    simp only [List.cons_append, parseDigitsAux, hc, if_pos]
    exact ih _ (fun d hd => h d (List.mem_cons_of_mem c hd))

/-- Parsing the printed digits of `n` starting from accumulator `acc` yields
`acc` shifted past the digit count plus `n`. -/
theorem parseDigitsAux_natDigitsAux :
    ∀ fuel n, n < fuel → ∀ acc,
      parseDigitsAux (natDigitsAux fuel n) acc = acc * 10 ^ (natDigitsAux fuel n).length + n := by
  intro fuel
  induction fuel with
  | zero => intro n h; omega
  | succ f ih =>
    intro n h acc
    by_cases h10 : n < 10
    · simp only [natDigitsAux, if_pos h10, parseDigitsAux, digitChar_isDigit h10, if_pos,
        digitChar_toNat h10, List.length_cons, List.length_nil, Nat.zero_add, pow_one]
      omega
    · have hdiv : n / 10 < f := by
        have := Nat.div_lt_self (n := n) (by omega) (by omega : 1 < 10)
        omega
      have hmod : n % 10 < 10 := Nat.mod_lt n (by omega)
      simp only [natDigitsAux, if_neg h10]
      rw [parseDigitsAux_append _ _ _ (natDigitsAux_all_digits f (n / 10) hdiv)]
      rw [ih (n / 10) hdiv acc]
      simp only [parseDigitsAux, digitChar_isDigit hmod, if_pos, digitChar_toNat hmod,
        List.length_append, List.length_cons, List.length_nil, Nat.zero_add, pow_succ]
      have hdm := Nat.div_add_mod n 10
      have hsub : 48 + n % 10 - 48 = n % 10 := by omega
      rw [hsub]
      ring_nf
      omega

/-- Round trip: parseInt recovers the integer printed by Number.toString. -/
theorem parseIntJS_natToString (n : Nat) : parseIntJS (natToString n) = some (n : Int) := by
  have hne := natDigitsAux_ne_nil (Nat.lt_succ_self n)
  have hdig := natDigitsAux_all_digits (n + 1) n (Nat.lt_succ_self n)
  have hparse := parseDigitsAux_natDigitsAux (n + 1) n (Nat.lt_succ_self n) 0
  rcases hd : natDigitsAux (n + 1) n with _ | ⟨c, cs⟩
  · exact absurd hd hne
  · have hcdig : c.isDigit = true := hdig c (by rw [hd]; exact List.mem_cons_self c cs)
    have hcsub : ∀ d ∈ cs, d.isDigit = true := fun d hdm => hdig d (by rw [hd]; exact List.mem_cons_of_mem c hdm)
    have hcm : ¬(c = '-') := by rintro rfl; simp [Char.isDigit] at hcdig
    have hcp : ¬(c = '+') := by rintro rfl; simp [Char.isDigit] at hcdig
    simp only [parseIntJS, natToString, hd, if_neg hcm, if_neg hcp, parseLeadingNat, hcdig,
      if_pos, Option.map_some']
    rw [hd] at hparse
    simp only [parseDigitsAux, hcdig, if_pos, Nat.zero_mul, Nat.zero_add] at hparse
    rw [hparse]
    simp

/-- The replay guard accepts the signing instant itself. -/
theorem checkFreshness_self (t : Int) : checkFreshness t t = true := by
  simp [checkFreshness]

/-- Strings with equal character data are equal. -/
theorem string_data_eq {a b : String} (h : a.data = b.data) : a = b := by
  cases a; cases b; exact congrArg String.mk h

/-- Characters with equal code points are equal. -/
theorem char_toNat_eq {a b : Char} (h : a.toNat = b.toNat) : a = b := by
  have := congrArg Char.ofNat h
  rwa [Char.ofNat_toNat, Char.ofNat_toNat] at this

/-- The lexicographic order on char lists is total. -/
theorem charListLeB_total : ∀ l₁ l₂ : List Char,
    charListLeB l₁ l₂ = true ∨ charListLeB l₂ l₁ = true := by
  intro l₁
  induction l₁ with
  | nil => intro l₂; left; rfl
  | cons a as ih =>
    intro l₂
    cases l₂ with
    | nil => right; rfl
    | cons b bs =>
      by_cases hab : a = b
      · subst hab
        simpa [charListLeB] using ih bs
      · have hba : ¬(b = a) := fun h => hab h.symm
        have hne : a.toNat ≠ b.toNat := fun h => hab (char_toNat_eq h)
        rcases Nat.lt_or_ge a.toNat b.toNat with h | h
        · left; simp [charListLeB, hab, charLtB, h]
        · right; simp [charListLeB, hba, charLtB]; omega

/-- The lexicographic order on char lists is transitive. -/
theorem charListLeB_trans : ∀ l₁ l₂ l₃ : List Char,
    charListLeB l₁ l₂ = true → charListLeB l₂ l₃ = true → charListLeB l₁ l₃ = true := by
  intro l₁
  induction l₁ with
  | nil => intro l₂ l₃ _ _; rfl
  | cons a as ih =>
    intro l₂ l₃ h12 h23
    cases l₂ with
    | nil => simp [charListLeB] at h12
    | cons b bs =>
      cases l₃ with
      | nil => simp [charListLeB] at h23
      | cons c cs =>
        by_cases hab : a = b
        · subst hab
          simp only [charListLeB, if_pos rfl] at h12
          by_cases hac : a = c
          · subst hac
            simp only [charListLeB, if_pos rfl] at h23 ⊢
            exact ih bs cs h12 h23
          · simp only [charListLeB, if_neg hac] at h23 ⊢
            exact h23
        · simp only [charListLeB, if_neg hab, charLtB, decide_eq_true_eq] at h12
          by_cases hbc : b = c
          · subst hbc
            by_cases hac : a = b
            · exact absurd hac hab
            · simp only [charListLeB, if_neg hac, charLtB, decide_eq_true_eq]
              exact h12
          · simp only [charListLeB, if_neg hbc, charLtB, decide_eq_true_eq] at h23
            have hac : ¬(a = c) := by
              intro h
              have := congrArg Char.toNat h
              omega
            simp only [charListLeB, if_neg hac, charLtB, decide_eq_true_eq]
            omega

/-- The lexicographic order on char lists is antisymmetric. -/
theorem charListLeB_antisymm : ∀ l₁ l₂ : List Char,
    charListLeB l₁ l₂ = true → charListLeB l₂ l₁ = true → l₁ = l₂ := by
  intro l₁
  induction l₁ with
  | nil =>
    intro l₂ _ h21
    cases l₂ with
    | nil => rfl
    | cons b bs => simp [charListLeB] at h21
  | cons a as ih =>
    intro l₂ h12 h21
    cases l₂ with
    | nil => simp [charListLeB] at h12
    | cons b bs =>
      by_cases hab : a = b
      · subst hab
        simp only [charListLeB, if_pos rfl] at h12 h21
        rw [ih bs h12 h21]
      · have hba : ¬(b = a) := fun h => hab h.symm
        simp only [charListLeB, if_neg hab, if_neg hba, charLtB, decide_eq_true_eq] at h12 h21
        omega

/-- Totality of the string order used by the sort. -/
theorem strLeB_total (a b : String) : strLeB a b = true ∨ strLeB b a = true :=
  charListLeB_total a.data b.data

/-- Transitivity of the string order used by the sort. -/
theorem strLeB_trans {a b c : String} (h1 : strLeB a b = true) (h2 : strLeB b c = true) :
    strLeB a c = true :=
  charListLeB_trans a.data b.data c.data h1 h2

/-- Antisymmetry of the string order used by the sort. -/
theorem strLeB_antisymm {a b : String} (h1 : strLeB a b = true) (h2 : strLeB b a = true) :
    a = b :=
  string_data_eq (charListLeB_antisymm a.data b.data h1 h2)

/-- Key order on query pairs. -/
def pairLe (a b : String × String) : Prop := strLeB a.1 b.1 = true

/-- Membership in an insertion. -/
theorem insertPair_mem {x y : String × String} {l : List (String × String)} :
    y ∈ insertPair strLeB x l ↔ y = x ∨ y ∈ l := by
  induction l with
  | nil => simp [insertPair]
  | cons z zs ih =>
    simp only [insertPair]
    split
    · simp [List.mem_cons]
    · simp only [List.mem_cons, ih]
      tauto

/-- Insertion permutes with consing. -/
theorem insertPair_perm (x : String × String) (l : List (String × String)) :
    (insertPair strLeB x l).Perm (x :: l) := by
  induction l with
  | nil => exact List.Perm.refl _
  | cons z zs ih =>
    simp only [insertPair]
    split
    · exact List.Perm.refl _
    · exact (ih.cons z).trans (List.Perm.swap x z zs)

/-- The sort permutes its input. -/
theorem sortByKey_perm (l : List (String × String)) : (sortByKey strLeB l).Perm l := by
  induction l with
  | nil => exact List.Perm.refl _
  | cons x xs ih =>
    exact (insertPair_perm x (sortByKey strLeB xs)).trans (ih.cons x)

/-- Insertion preserves key-sortedness. -/
theorem insertPair_pairwise (x : String × String) (l : List (String × String))
    (hl : l.Pairwise pairLe) : (insertPair strLeB x l).Pairwise pairLe := by
  induction l with
  | nil => simp [insertPair, List.pairwise_cons]
  | cons y ys ih =>
    rcases List.pairwise_cons.mp hl with ⟨hy, hys⟩
    simp only [insertPair]
    split
    · rename_i hxy
      refine List.pairwise_cons.mpr ⟨?_, hl⟩
      intro z hz
      rcases List.mem_cons.mp hz with rfl | hz
      · exact hxy
      · exact strLeB_trans hxy (hy z hz)
    · rename_i hxy
      have hyx : strLeB y.1 x.1 = true := by
        rcases strLeB_total x.1 y.1 with h | h
        · exact absurd h hxy
        · exact h
      refine List.pairwise_cons.mpr ⟨?_, ih hys⟩
      intro z hz
      rcases insertPair_mem.mp hz with rfl | hz
      · exact hyx
      · exact hy z hz

/-- The sort output is key-sorted. -/
theorem sortByKey_pairwise (l : List (String × String)) :
    (sortByKey strLeB l).Pairwise pairLe := by
  induction l with
  | nil => exact List.Pairwise.nil
  | cons x xs ih => exact insertPair_pairwise x (sortByKey strLeB xs) ih

/-- Two key-sorted lists that are permutations of each other and have no
duplicate keys are equal. -/
theorem sorted_perm_nodupkeys_eq :
    ∀ l₁ l₂ : List (String × String), l₁.Perm l₂ → l₁.Pairwise pairLe →
      l₂.Pairwise pairLe → (l₂.map Prod.fst).Nodup → l₁ = l₂ := by
  intro l₁
  induction l₁ with
  | nil =>
    intro l₂ hp _ _ _
    exact (hp.symm.eq_nil).symm
  | cons x t₁ ih =>
    intro l₂ hp h₁ h₂ hnd
    cases l₂ with
    | nil => exact absurd hp.eq_nil (by simp)
    | cons y t₂ =>
      rcases List.pairwise_cons.mp h₁ with ⟨hxall, ht₁⟩
      rcases List.pairwise_cons.mp h₂ with ⟨hyall, ht₂⟩
      rw [List.map_cons] at hnd
      rcases List.nodup_cons.mp hnd with ⟨hynotin, hndt₂⟩
      by_cases hxy : x = y
      · subst hxy
        rw [ih t₂ hp.cons_inv ht₁ ht₂ hndt₂]
      · exfalso
        have hxmem : x ∈ y :: t₂ := hp.subset (List.mem_cons_self x t₁)
        have hxt₂ : x ∈ t₂ := by
          rcases List.mem_cons.mp hxmem with h | h
          · exact absurd h hxy
          · exact h
        have hymem : y ∈ x :: t₁ := hp.symm.subset (List.mem_cons_self y t₂)
        have hyt₁ : y ∈ t₁ := by
          rcases List.mem_cons.mp hymem with h | h
          · exact absurd h.symm hxy
          · exact h
        have hkey : x.1 = y.1 :=
          strLeB_antisymm (hxall y hyt₁) (hyall x hxt₂)
        exact hynotin (hkey ▸ List.mem_map_of_mem Prod.fst hxt₂)

/-- Canonical query strings agree on permuted parameter lists with unique
keys. -/
theorem sortedParams_perm {l₁ l₂ : List (String × String)} (hp : l₁.Perm l₂)
    (hnd : (l₂.map Prod.fst).Nodup) : sortedParams l₁ = sortedParams l₂ := by
  have hsp : (sortByKey strLeB l₁).Perm (sortByKey strLeB l₂) :=
    (sortByKey_perm l₁).trans (hp.trans (sortByKey_perm l₂).symm)
  have hndt : ((sortByKey strLeB l₂).map Prod.fst).Nodup :=
    (((sortByKey_perm l₂).map Prod.fst).symm).nodup hnd
  have heq : sortByKey strLeB l₁ = sortByKey strLeB l₂ :=
    sorted_perm_nodupkeys_eq _ _ hsp (sortByKey_pairwise l₁) (sortByKey_pairwise l₂) hndt
  rw [sortedParams, sortedParams, heq]
theorem signResponse_verify_ok (hmac : Digest) (S : String) (P : JSValue) (now : Nat)
    (hd : ∀ s m, hmac s m ≠ []) (hP : P.truthy = true) :
    ClientHmac.verifyHMACResponse hmac S (some (signResponse hmac P S now)) (now : Int) =
      ⟨true, none, some P⟩ := by
  have hsig : hexEncode (hmac S (hmacInput (JSValue.obj [("data", P), ("timestamp", .str (natToString now))]))) ≠ "" :=
    hexEncode_ne_empty (hd _ _)
  have hts := natToString_ne_empty now
  simp [signResponse, ClientHmac.verifyHMACResponse, ClientHmac.generateHMAC, generateHMAC, hP,
    hsig, hts, parseIntJS_natToString, checkFreshness_self, jsStrictEq_self]

theorem createSignedRequest_middleware_ok (hmac : Digest) (S : String) (Q : JSValue) (now : Nat)
    (hd : ∀ s m, hmac s m ≠ []) :
    verifyHMACMiddleware hmac S "POST"
      (some (ClientHmac.createSignedRequest hmac S Q now).signatureHeader)
      (some (ClientHmac.createSignedRequest hmac S Q now).timestampHeader)
      (ClientHmac.createSignedRequest hmac S Q now).body (now : Int) = .next := by
  have hsig : hexEncode (hmac S (hmacInput (JSValue.obj [("body", Q), ("timestamp", .str (natToString now))]))) ≠ "" :=
    hexEncode_ne_empty (hd _ _)
  have hts := natToString_ne_empty now
  simp [verifyHMACMiddleware, ClientHmac.createSignedRequest, ClientHmac.generateHMAC,
    generateHMAC, verifyHMAC, timingSafeEqual_self, hsig, hts, optTruthy,
    parseIntJS_natToString, checkFreshness_self]

theorem verifyHMACResponse_falsy (hmac : Digest) (S : String) (e : ResponseEnvelope) (now : Int)
    (hf : e.data.truthy = false) :
    ClientHmac.verifyHMACResponse hmac S (some e) now =
      ⟨false, some "Missing HMAC data in response", none⟩ := by
  rcases e with ⟨d, hm⟩
  rcases hm with _ | meta
  · simp [ClientHmac.verifyHMACResponse]
  · simp only at hf
    simp [ClientHmac.verifyHMACResponse, hf]

theorem mw_missing_sig (hmac : Digest) (S : String) (body : JSValue) (now : Int)
    (tsH : Option String) :
    verifyHMACMiddleware hmac S "POST" none tsH body now =
      .reject 401 "HMAC authentication required"
        "Missing X-HMAC-Signature or X-HMAC-Timestamp header" := by
  simp [verifyHMACMiddleware, optTruthy]

theorem mw_expired (hmac : Digest) (S : String) (body : JSValue) (now : Int)
    (sig ts : String) (t : Int)
    (hsig : sig ≠ "") (hts : ts ≠ "") (hp : parseIntJS ts = some t)
    (hf : checkFreshness t now = false) :
    verifyHMACMiddleware hmac S "POST" (some sig) (some ts) body now =
      .reject 401 "Request expired" "Timestamp is too old or in the future" := by
  simp [verifyHMACMiddleware, optTruthy, hsig, hts, hp, hf]

theorem mw_mismatch (hmac : Digest) (S : String) (body : JSValue) (now : Int)
    (sig ts : String)
    (hsig : sig ≠ "") (hts : ts ≠ "")
    (hfresh : ∀ t, parseIntJS ts = some t → checkFreshness t now = true)
    (hlen : utf8Len sig =
      utf8Len (generateHMAC hmac (JSValue.obj [("body", body), ("timestamp", .str ts)]) S))
    (hne : sig ≠ generateHMAC hmac (JSValue.obj [("body", body), ("timestamp", .str ts)]) S) :
    verifyHMACMiddleware hmac S "POST" (some sig) (some ts) body now =
      .reject 401 "Invalid HMAC signature" "Request signature verification failed" := by
  have hb : (sig == generateHMAC hmac (JSValue.obj [("body", body), ("timestamp", .str ts)]) S) = false :=
    beq_eq_false_iff_ne.mpr hne
  rcases h : parseIntJS ts with _ | t
  · simp [verifyHMACMiddleware, optTruthy, hsig, hts, h, verifyHMAC, timingSafeEqual, hlen, hb]
  · simp [verifyHMACMiddleware, optTruthy, hsig, hts, h, hfresh t h, verifyHMAC,
      timingSafeEqual, hlen, hb]

theorem mw_length_throw (hmac : Digest) (S : String) (body : JSValue) (now : Int)
    (sig ts : String)
    (hsig : sig ≠ "") (hts : ts ≠ "")
    (hfresh : ∀ t, parseIntJS ts = some t → checkFreshness t now = true)
    (hlen : utf8Len sig ≠
      utf8Len (generateHMAC hmac (JSValue.obj [("body", body), ("timestamp", .str ts)]) S)) :
    verifyHMACMiddleware hmac S "POST" (some sig) (some ts) body now =
      .reject 500 "HMAC verification error" "Input buffers must have the same byte length" := by
  rcases h : parseIntJS ts with _ | t
  · simp [verifyHMACMiddleware, optTruthy, hsig, hts, h, verifyHMAC, timingSafeEqual, hlen]
  · simp [verifyHMACMiddleware, optTruthy, hsig, hts, h, hfresh t h, verifyHMAC,
      timingSafeEqual, hlen]

theorem webhook_length_throw (hmac : Digest) (parseJson : String → Option JSValue)
    (S header raw : String) (hh : header ≠ "")
    (hlen : utf8Len (base64Encode (hmac S raw)) ≠ utf8Len header) :
    verifyShopifyWebhook hmac parseJson S (some header) raw =
      .reject 400 "Invalid Webhook" := by
  simp [verifyShopifyWebhook, optTruthy, hh, timingSafeEqual, hlen]

theorem webhook_mismatch (hmac : Digest) (parseJson : String → Option JSValue)
    (S header raw : String) (hh : header ≠ "")
    (hlen : utf8Len (base64Encode (hmac S raw)) = utf8Len header)
    (hne : base64Encode (hmac S raw) ≠ header) :
    verifyShopifyWebhook hmac parseJson S (some header) raw =
      .reject 401 "Unauthorized" := by
  have hb : (base64Encode (hmac S raw) == header) = false := beq_eq_false_iff_ne.mpr hne
  simp [verifyShopifyWebhook, optTruthy, hh, timingSafeEqual, hlen, hb]


/-! ## Claim theorems -/

/-- Concrete digest primitive used to evaluate the layer at specific inputs:
it returns the fixed two-byte digest [171, 205] (hex "abcd", base64 "q80="). -/
def constDigest : Digest := fun _ _ => [171, 205]

/-- Claim C1, counterexample: the app-proxy verifier compares signatures with
JS string equality, which is short-circuiting — two rejected candidate
signatures of equal length cause different numbers of character inspections,
a timing observable, so the comparison is not constant-time. -/
theorem C1_counterexample :
    verifyAppProxy constDigest "k" [("shop", "x"), ("signature", "zbcd")] = false ∧
    verifyAppProxy constDigest "k" [("shop", "x"), ("signature", "abcz")] = false ∧
    ("zbcd" : String).length = ("abcz" : String).length ∧
    verifyAppProxySteps constDigest "k" [("shop", "x"), ("signature", "zbcd")] ≠
      verifyAppProxySteps constDigest "k" [("shop", "x"), ("signature", "abcz")] := by
  decide

/-- Claim C1, amended: the envelope verifier (verifyHMAC, hence the webhook
verifier too, which applies the same primitive) compares via
crypto.timingSafeEqual, whose inspection count is a function of the byte
lengths alone; the app-proxy verifier and the client-side response verifier
compare with short-circuiting string equality, whose inspection count is
content-dependent. -/
theorem C1_amended_comparison_time :
    (∀ a b : String, (timingSafeEqualT a b).map Prod.snd =
      if utf8Len a = utf8Len b then some (utf8Len a) else none) ∧
    (∀ (hmac : Digest) (payload : JSValue) (signature secret : String),
      verifyHMAC hmac payload signature secret =
        timingSafeEqual signature (generateHMAC hmac payload secret)) ∧
    (∃ q₁ q₂ : List (String × String), ∃ s₁ s₂ : String,
      q₁.lookup "signature" = some s₁ ∧ q₂.lookup "signature" = some s₂ ∧
      s₁.length = s₂.length ∧
      verifyAppProxySteps constDigest "k" q₁ ≠ verifyAppProxySteps constDigest "k" q₂) ∧
    (∃ r₁ r₂ : ResponseEnvelope, ∃ now : Int, ∃ m₁ m₂ : String × String,
      r₁.hmac = some m₁ ∧ r₂.hmac = some m₂ ∧ m₁.1.length = m₂.1.length ∧
      ClientHmac.verifyHMACResponseSteps constDigest "k" (some r₁) now ≠
        ClientHmac.verifyHMACResponseSteps constDigest "k" (some r₂) now) := by
  refine ⟨?_, ?_, ?_, ?_⟩
  · intro a b
    by_cases h : utf8Len a = utf8Len b <;> simp [timingSafeEqualT, h]
  · intro hmac payload signature secret
    rfl
  · exact ⟨[("shop", "x"), ("signature", "zbcd")], [("shop", "x"), ("signature", "abcz")],
      "zbcd", "abcz", by decide, by decide, by decide, by decide⟩
  · exact ⟨⟨.str "x", some ("zbcd", "5")⟩, ⟨.str "x", some ("abcz", "5")⟩, 5,
      ("zbcd", "5"), ("abcz", "5"), rfl, rfl, by decide, by decide⟩

/-- Claim C2, counterexample: signing the payload 0 and verifying immediately
with the same secret and the signing instant fails — the client verifier
rejects the envelope as missing data because 0 is falsy. -/
theorem C2_counterexample :
    (ClientHmac.verifyHMACResponse constDigest "k1"
        (some (signResponse constDigest (.num 0) "k1" 5)) 5).isValid = false ∧
    (ClientHmac.verifyHMACResponse constDigest "k1"
        (some (signResponse constDigest (.num 0) "k1" 5)) 5).error =
      some "Missing HMAC data in response" := by
  decide

/-- Claim C2, amended: for every truthy payload P and secret S, the envelope
produced by signResponse(P, S) is accepted by verifyHMACResponse with the
same secret at the signing instant, and for every payload Q, the request
signed by createSignedRequest passes verifyHMACMiddleware under the same
conditions — the signed canonical structures match between the two sides. -/
theorem C2_round_trip (hmac : Digest) (S : String) (P Q : JSValue) (now : Nat)
    (hd : ∀ s m, hmac s m ≠ []) (hP : P.truthy = true) :
    ClientHmac.verifyHMACResponse hmac S (some (signResponse hmac P S now)) (now : Int) =
      ⟨true, none, some P⟩ ∧
    verifyHMACMiddleware hmac S "POST"
      (some (ClientHmac.createSignedRequest hmac S Q now).signatureHeader)
      (some (ClientHmac.createSignedRequest hmac S Q now).timestampHeader)
      (ClientHmac.createSignedRequest hmac S Q now).body (now : Int) = .next :=
  ⟨signResponse_verify_ok hmac S P now hd hP, createSignedRequest_middleware_ok hmac S Q now hd⟩

/-- Claim C2, witness: the round trip at a concrete truthy payload. -/
theorem C2_witness :
    (JSValue.str "ok").truthy = true ∧
    (ClientHmac.verifyHMACResponse constDigest "k1"
        (some (signResponse constDigest (.str "ok") "k1" 5)) (5 : Int) =
      ⟨true, none, some (.str "ok")⟩ ∧
    verifyHMACMiddleware constDigest "k1" "POST"
      (some (ClientHmac.createSignedRequest constDigest "k1" (.num 7) 5).signatureHeader)
      (some (ClientHmac.createSignedRequest constDigest "k1" (.num 7) 5).timestampHeader)
      (ClientHmac.createSignedRequest constDigest "k1" (.num 7) 5).body (5 : Int) = .next) :=
  ⟨by decide,
    C2_round_trip constDigest "k1" (.str "ok") (.num 7) 5
      (fun s m => by simp [constDigest]) (by decide)⟩

/-- Claim C3: the replay window guard accepts a timestamp exactly when its
absolute difference from the current time is at most 300000 ms, in either
direction, with the boundary points behaving as stated. -/
theorem C3_replay_window (t now : Int) :
    (checkFreshness t now = true ↔ (now - t).natAbs ≤ 300000) ∧
    checkFreshness (now - 300000) now = true ∧
    checkFreshness (now - 300001) now = false ∧
    checkFreshness (now + 300000) now = true ∧
    checkFreshness (now + 300001) now = false := by
  refine ⟨?_, ?_, ?_, ?_, ?_⟩ <;> simp [checkFreshness, MAX_TIME_DIFF]

/-- Claim C4: evaluation at the failing input.  A timestamp header that does
not parse as an integer (parseInt gives NaN) is not rejected at all: the
NaN window comparison is false, so no expiry rejection fires, there is no
malformed-timestamp rejection, and a request whose signature covers the
garbage timestamp string is accepted outright. -/
theorem C4_unparseable_timestamp_not_rejected :
    parseIntJS "not-a-number" = none ∧
    verifyHMACMiddleware constDigest "k1" "POST"
      (some (generateHMAC constDigest
        (JSValue.obj [("body", .str "hello"), ("timestamp", .str "not-a-number")]) "k1"))
      (some "not-a-number") (.str "hello") 1700000000000 = .next :=
  ⟨by decide, by decide⟩

/-- Claim C5, counterexample: a candidate signature with a different byte
length makes timingSafeEqual throw, which the envelope middleware maps to a
500 response and the webhook adapter to a 400 response — different from the
401 that a same-length mismatch receives in each caller, so the failure is
not delivered consistently. -/
theorem C5_counterexample :
    verifyHMACMiddleware constDigest "k1" "POST" (some "abc") (some "5") (.str "x") 5 =
      .reject 500 "HMAC verification error" "Input buffers must have the same byte length" ∧
    verifyHMACMiddleware constDigest "k1" "POST" (some "zyxw") (some "5") (.str "x") 5 =
      .reject 401 "Invalid HMAC signature" "Request signature verification failed" ∧
    verifyShopifyWebhook constDigest (fun _ => some .null) "k1" (some "abc") "body" =
      .reject 400 "Invalid Webhook" ∧
    verifyShopifyWebhook constDigest (fun _ => some .null) "k1" (some "q81=") "body" =
      .reject 401 "Unauthorized" :=
  ⟨by decide, by decide, rfl, rfl⟩

/-- Claim C5, amended: a byte-length mismatch of the candidate signature
fails deterministically without the comparison inspecting content, but the
outcome differs per caller: the envelope middleware returns a 500
verification-error response and the webhook adapter a 400 Invalid Webhook
response, unlike the 401 of a same-length mismatch. -/
theorem C5_amended (hmac : Digest) (secret : String) (body : JSValue) (now : Int)
    (sig ts raw header : String) (parseJson : String → Option JSValue)
    (hsig : sig ≠ "") (hts : ts ≠ "")
    (hfresh : ∀ t, parseIntJS ts = some t → checkFreshness t now = true)
    (hlen : utf8Len sig ≠
      utf8Len (generateHMAC hmac (JSValue.obj [("body", body), ("timestamp", .str ts)]) secret))
    (hh : header ≠ "")
    (hwlen : utf8Len (base64Encode (hmac secret raw)) ≠ utf8Len header) :
    verifyHMACMiddleware hmac secret "POST" (some sig) (some ts) body now =
      .reject 500 "HMAC verification error" "Input buffers must have the same byte length" ∧
    verifyShopifyWebhook hmac parseJson secret (some header) raw =
      .reject 400 "Invalid Webhook" :=
  ⟨mw_length_throw hmac secret body now sig ts hsig hts hfresh hlen,
    webhook_length_throw hmac parseJson secret header raw hh hwlen⟩

/-- Claim C5, witness: the amended statement at concrete inputs. -/
theorem C5_witness :
    utf8Len "abc" ≠ utf8Len (generateHMAC constDigest
      (JSValue.obj [("body", .str "x"), ("timestamp", .str "5")]) "k1") ∧
    (verifyHMACMiddleware constDigest "k1" "POST" (some "abc") (some "5") (.str "x") 5 =
      .reject 500 "HMAC verification error" "Input buffers must have the same byte length" ∧
    verifyShopifyWebhook constDigest (fun _ => some .null) "k1" (some "abc") "body" =
      .reject 400 "Invalid Webhook") :=
  ⟨by decide,
    C5_amended constDigest "k1" (.str "x") 5 "abc" "5" "body" "abc" (fun _ => some .null)
      (by decide) (by decide)
      (fun t ht => by
        have h5 : parseIntJS "5" = some (5 : Int) := by decide
        rw [h5] at ht
        obtain rfl : (5 : Int) = t := Option.some_inj.mp ht
        decide)
      (by decide) (by decide) (by decide)⟩

/-- Claim C6: app-proxy canonicalization excludes the signature parameter,
sorts the remaining pairs by key and joins them with no separator, so two
queries whose signature-excluded pairs are the same up to order (with
unique keys) produce the same expected signature in verifyAppProxy. -/
theorem C6_query_canonicalization (hmac : Digest) (secret : String)
    (q₁ q₂ : List (String × String))
    (hp : (q₁.filter (fun p => p.1 != "signature")).Perm
      (q₂.filter (fun p => p.1 != "signature")))
    (hnd : ((q₂.filter (fun p => p.1 != "signature")).map Prod.fst).Nodup) :
    appProxyExpected hmac secret (q₁.filter (fun p => p.1 != "signature")) =
      appProxyExpected hmac secret (q₂.filter (fun p => p.1 != "signature")) := by
  rw [appProxyExpected, appProxyExpected, sortedParams_perm hp hnd]

/-- Claim C6, witness: the spec's example — `b=2, a=1` against `a=1, b=2`
with the signature field excluded. -/
theorem C6_witness :
    (([("b", "2"), ("a", "1"), ("signature", "s")].filter
        (fun p => p.1 != "signature")).Perm
      ([("signature", "s"), ("a", "1"), ("b", "2")].filter
        (fun p => p.1 != "signature"))) ∧
    appProxyExpected constDigest "k"
        ([("b", "2"), ("a", "1"), ("signature", "s")].filter
          (fun p => p.1 != "signature")) =
      appProxyExpected constDigest "k"
        ([("signature", "s"), ("a", "1"), ("b", "2")].filter
          (fun p => p.1 != "signature")) :=
  ⟨by decide,
    C6_query_canonicalization constDigest "k"
      [("b", "2"), ("a", "1"), ("signature", "s")]
      [("signature", "s"), ("a", "1"), ("b", "2")]
      (by decide) (by decide)⟩

/-- Claim C7, counterexample: requests failing for different reasons receive
different responses — the missing-credentials, expired-timestamp and
signature-mismatch rejections of the envelope middleware carry distinct
error and message strings, so the caller learns which check failed. -/
theorem C7_counterexample :
    verifyHMACMiddleware constDigest "k1" "POST" none none (.str "x") 5 =
      .reject 401 "HMAC authentication required"
        "Missing X-HMAC-Signature or X-HMAC-Timestamp header" ∧
    verifyHMACMiddleware constDigest "k1" "POST" (some "abcd") (some "400000") (.str "x") 700001 =
      .reject 401 "Request expired" "Timestamp is too old or in the future" ∧
    verifyHMACMiddleware constDigest "k1" "POST" (some "zyxw") (some "5") (.str "x") 5 =
      .reject 401 "Invalid HMAC signature" "Request signature verification failed" ∧
    (MWResult.reject 401 "HMAC authentication required"
        "Missing X-HMAC-Signature or X-HMAC-Timestamp header" ≠
      MWResult.reject 401 "Request expired" "Timestamp is too old or in the future") ∧
    (MWResult.reject 401 "Request expired" "Timestamp is too old or in the future" ≠
      MWResult.reject 401 "Invalid HMAC signature" "Request signature verification failed") ∧
    (MWResult.reject 401 "HMAC authentication required"
        "Missing X-HMAC-Signature or X-HMAC-Timestamp header" ≠
      MWResult.reject 401 "Invalid HMAC signature" "Request signature verification failed") := by
  decide

/-- Claim C7, amended: each verification failure kind of the envelope
middleware is reported to the caller with its own error and message
strings (missing credentials, expired timestamp, signature mismatch), and
these three rejection responses are pairwise distinct, so the rejection is
distinguishing rather than uniform. -/
theorem C7_amended (hmac : Digest) (secret : String) (body : JSValue) (now : Int)
    (tsH : Option String) (sig ts : String) (t : Int)
    (hsig : sig ≠ "") (hts : ts ≠ "")
    (hp : parseIntJS ts = some t) (hexp : checkFreshness t now = false)
    (sig' ts' : String) (hsig' : sig' ≠ "") (hts' : ts' ≠ "")
    (hfresh' : ∀ u, parseIntJS ts' = some u → checkFreshness u now = true)
    (hlen' : utf8Len sig' =
      utf8Len (generateHMAC hmac (JSValue.obj [("body", body), ("timestamp", .str ts')]) secret))
    (hne' : sig' ≠
      generateHMAC hmac (JSValue.obj [("body", body), ("timestamp", .str ts')]) secret) :
    verifyHMACMiddleware hmac secret "POST" none tsH body now =
      .reject 401 "HMAC authentication required"
        "Missing X-HMAC-Signature or X-HMAC-Timestamp header" ∧
    verifyHMACMiddleware hmac secret "POST" (some sig) (some ts) body now =
      .reject 401 "Request expired" "Timestamp is too old or in the future" ∧
    verifyHMACMiddleware hmac secret "POST" (some sig') (some ts') body now =
      .reject 401 "Invalid HMAC signature" "Request signature verification failed" ∧
    (MWResult.reject 401 "HMAC authentication required"
        "Missing X-HMAC-Signature or X-HMAC-Timestamp header" ≠
      MWResult.reject 401 "Request expired" "Timestamp is too old or in the future") ∧
    (MWResult.reject 401 "Request expired" "Timestamp is too old or in the future" ≠
      MWResult.reject 401 "Invalid HMAC signature" "Request signature verification failed") := by
  refine ⟨mw_missing_sig hmac secret body now tsH,
    mw_expired hmac secret body now sig ts t hsig hts hp hexp,
    mw_mismatch hmac secret body now sig' ts' hsig' hts' hfresh' hlen' hne', by decide, by decide⟩

/-- Claim C7, witness: the amended statement at concrete inputs. -/
theorem C7_witness :
    parseIntJS "400000" = some 400000 ∧
    (verifyHMACMiddleware constDigest "k1" "POST" none (some "400000") (.str "x") 700001 =
      .reject 401 "HMAC authentication required"
        "Missing X-HMAC-Signature or X-HMAC-Timestamp header" ∧
    verifyHMACMiddleware constDigest "k1" "POST" (some "abcd") (some "400000") (.str "x") 700001 =
      .reject 401 "Request expired" "Timestamp is too old or in the future" ∧
    verifyHMACMiddleware constDigest "k1" "POST" (some "zyxw") (some "700001") (.str "x") 700001 =
      .reject 401 "Invalid HMAC signature" "Request signature verification failed" ∧
    (MWResult.reject 401 "HMAC authentication required"
        "Missing X-HMAC-Signature or X-HMAC-Timestamp header" ≠
      MWResult.reject 401 "Request expired" "Timestamp is too old or in the future") ∧
    (MWResult.reject 401 "Request expired" "Timestamp is too old or in the future" ≠
      MWResult.reject 401 "Invalid HMAC signature" "Request signature verification failed")) :=
  ⟨by decide,
    C7_amended constDigest "k1" (.str "x") 700001 (some "400000") "abcd" "400000" 400000
      (by decide) (by decide) (by decide) (by decide)
      "zyxw" "700001" (by decide) (by decide)
      (fun u hu => by
        have h7 : parseIntJS "700001" = some (700001 : Int) := by decide
        rw [h7] at hu
        obtain rfl : (700001 : Int) = u := Option.some_inj.mp hu
        decide)
      (by decide) (by decide)⟩

/-- Claim C8, counterexample: the app-proxy rejection body returned to the
caller contains the full received signature value in its debug detail. -/
theorem C8_counterexample :
    appProxyMiddleware constDigest "k1"
        [("shop", "s1.myshopify.com"), ("signature", "deadbeef"), ("timestamp", "1")] =
      .reject 401 ⟨false, "Invalid app proxy signature", some "s1.myshopify.com",
        some "deadbeef", true, ["shop", "signature", "timestamp"]⟩ ∧
    (appProxyRejectBody
        [("shop", "s1.myshopify.com"), ("signature", "deadbeef"), ("timestamp", "1")]).receivedSignature =
      some "deadbeef" := by
  decide

/-- Claim C8, amended: when app-proxy verification fails, the 401 body is a
function of the query alone — it exposes the parameter names, whether a
timestamp parameter was included, the received shop, and the full candidate
signature value; the secret and the computed expected signature never enter
the body. -/
theorem C8_amended (hmac : Digest) (secret : String) (query : List (String × String))
    (h : verifyAppProxy hmac secret query = false) :
    appProxyMiddleware hmac secret query = .reject 401 (appProxyRejectBody query) ∧
    (appProxyRejectBody query).receivedSignature = query.lookup "signature" ∧
    (appProxyRejectBody query).allParams = query.map Prod.fst ∧
    (appProxyRejectBody query).hasTimestamp = optTruthy (query.lookup "timestamp") := by
  refine ⟨?_, rfl, rfl, rfl⟩
  simp [appProxyMiddleware, h]

/-- Claim C8, witness: the amended statement at a concrete failing query. -/
theorem C8_witness :
    verifyAppProxy constDigest "k1"
      [("shop", "s2.myshopify.com"), ("signature", "feedface")] = false ∧
    (appProxyMiddleware constDigest "k1"
        [("shop", "s2.myshopify.com"), ("signature", "feedface")] =
      .reject 401 (appProxyRejectBody
        [("shop", "s2.myshopify.com"), ("signature", "feedface")]) ∧
    (appProxyRejectBody
        [("shop", "s2.myshopify.com"), ("signature", "feedface")]).receivedSignature =
      [("shop", "s2.myshopify.com"), ("signature", "feedface")].lookup "signature" ∧
    (appProxyRejectBody
        [("shop", "s2.myshopify.com"), ("signature", "feedface")]).allParams =
      [("shop", "s2.myshopify.com"), ("signature", "feedface")].map Prod.fst ∧
    (appProxyRejectBody
        [("shop", "s2.myshopify.com"), ("signature", "feedface")]).hasTimestamp =
      optTruthy ([("shop", "s2.myshopify.com"), ("signature", "feedface")].lookup "timestamp")) :=
  ⟨by decide,
    C8_amended constDigest "k1" [("shop", "s2.myshopify.com"), ("signature", "feedface")]
      (by decide)⟩

/-- Claim C9: a missing shared secret is fatal at startup — both server entry
points exit with code 1 before any request can be accepted, and never reach
the listening state. -/
theorem C9_missing_secret_fatal (port p : Nat) (apiKey : Option String) :
    envelopeServerStartup none port = .exited 1 ∧
    envelopeServerStartup none port ≠ .listening p ∧
    proxyServerStartup none apiKey port = .exited 1 ∧
    proxyServerStartup none apiKey port ≠ .listening p := by
  refine ⟨rfl, ?_, ?_, ?_⟩
  · simp [envelopeServerStartup, optTruthy]
  · simp [proxyServerStartup, optTruthy]
  · simp [proxyServerStartup, optTruthy]

/-- Claim C10: the client verifier rejects any envelope whose data field is
falsy with the missing-HMAC-data error, whatever the signature and
timestamp; in particular the sign-then-verify round trip fails with that
error exactly for falsy payloads, and succeeds for truthy ones. -/
theorem C10_falsy_data (hmac : Digest) (S : String) (e : ResponseEnvelope) (now : Int)
    (P Q : JSValue) (nowN : Nat)
    (hf : e.data.truthy = false) (hP : P.truthy = false) (hQ : Q.truthy = true)
    (hd : ∀ s m, hmac s m ≠ []) :
    ClientHmac.verifyHMACResponse hmac S (some e) now =
      ⟨false, some "Missing HMAC data in response", none⟩ ∧
    ClientHmac.verifyHMACResponse hmac S (some (signResponse hmac P S nowN)) (nowN : Int) =
      ⟨false, some "Missing HMAC data in response", none⟩ ∧
    ClientHmac.verifyHMACResponse hmac S (some (signResponse hmac Q S nowN)) (nowN : Int) =
      ⟨true, none, some Q⟩ :=
  ⟨verifyHMACResponse_falsy hmac S e now hf,
    verifyHMACResponse_falsy hmac S _ _ (by simpa [signResponse] using hP),
    signResponse_verify_ok hmac S Q nowN hd hQ⟩

/-- Claim C10, witness: a falsy-data envelope that carries the correct
signature and a fresh timestamp is still rejected as missing data, and the
round trip fails for the falsy payload `false` while succeeding for a
truthy string. -/
theorem C10_witness :
    (JSValue.num 0).truthy = false ∧
    (ClientHmac.verifyHMACResponse constDigest "k1"
        (some ⟨.num 0, some ("abcd", "5")⟩) 5 =
      ⟨false, some "Missing HMAC data in response", none⟩ ∧
    ClientHmac.verifyHMACResponse constDigest "k1"
        (some (signResponse constDigest (.bool false) "k1" 5)) (5 : Int) =
      ⟨false, some "Missing HMAC data in response", none⟩ ∧
    ClientHmac.verifyHMACResponse constDigest "k1"
        (some (signResponse constDigest (.str "ok") "k1" 5)) (5 : Int) =
      ⟨true, none, some (.str "ok")⟩) :=
  ⟨by decide,
    C10_falsy_data constDigest "k1" ⟨.num 0, some ("abcd", "5")⟩ 5 (.bool false) (.str "ok") 5
      (by decide) (by decide) (by decide) (fun s m => by simp [constDigest])⟩
